import Mathlib

/-!
Verification development for the Libero project/script-generation engine of
tsfpga: a shallow embedding of src/tsfpga/libero/tcl.py and
src/tsfpga/libero/project.py, together with theorems about the embedded
operations.

Modelling conventions:
* Python strings are Lean String values; all string algorithms used by the
  embedding (split, replace, substring search, join) are reimplemented by
  structural recursion over the character list so that every definition
  evaluates inside the kernel.
* Python exceptions are the error component of Except PyError; a raised
  exception propagating out of a method is an Except.error result.
* Filesystem state is passed explicitly as a FileSystem value (a list of
  directories and a list of path/content file pairs).
* pathlib.Path values are PyPath values holding the textual path; Path.resolve
  is modelled as the identity, i.e. model paths are taken to be already
  resolved absolute paths (symlink resolution is a filesystem effect outside
  the embedding).
-/

/-- Python exception values observed by the embedded code: ValueError (raised
by LiberoProject._create_tcl for an existing directory), IndexError (raised by
the part-string indexing in LiberoTcl.create), NotImplementedError (raised by
LiberoTcl._add_constraints for an unknown constraint suffix) and TypeError
(raised by a call that omits a required positional argument). -/
inductive PyError where
  | valueError (msg : String)
  | indexError
  | notImplementedError (msg : String)
  | typeError (msg : String)
deriving DecidableEq, Repr

deriving instance DecidableEq for Except

/-- A pathlib.Path value, modelled by its textual form. -/
structure PyPath where
  s : String
deriving DecidableEq, Repr

/-- Bool-valued test that one character list is a prefix of another. -/
def listStartsWith : List Char → List Char → Bool
  | [], _ => true
  | _ :: _, [] => false
  | a :: as, b :: bs => a == b && listStartsWith as bs

/-- Split a character list on a single separator character; mirrors Python
str.split with a one-character separator (and Lean String.splitOn), e.g.
splitting an empty list gives one empty field. -/
def splitOnChar (sep : Char) : List Char → List (List Char)
  | [] => [[]]
  | c :: cs =>
      match splitOnChar sep cs with
      | [] => [[]]
      | r :: rs => if c == sep then [] :: r :: rs else (c :: r) :: rs

/-- Python str.split(sep) for a one-character separator. -/
def pySplit (sep : Char) (s : String) : List String :=
  (splitOnChar sep s.toList).map String.mk

/-- Fuel-driven worker for pyReplace: at each position either copies one
character or, when the pattern is a prefix, emits the replacement and skips
the pattern. The fuel starts at the length of the subject, which suffices
because each step consumes at least one subject character (patterns used by
the embedding are nonempty). -/
def replaceGo (pat rep : List Char) : Nat → List Char → List Char
  | _, [] => []
  | 0, cs => cs
  | fuel + 1, c :: cs =>
      if listStartsWith pat (c :: cs) then
        rep ++ replaceGo pat rep fuel (List.drop pat.length (c :: cs))
      else
        c :: replaceGo pat rep fuel cs

/-- Python str.replace: replaces every non-overlapping occurrence of pattern,
scanning left to right. An empty pattern is returned unchanged (the embedding
only ever replaces nonempty placeholder tokens). -/
def pyReplace (s pattern replacement : String) : String :=
  if pattern.isEmpty then s
  else String.mk (replaceGo pattern.toList replacement.toList s.toList.length s.toList)

/-- Worker for containsSubstr. -/
def containsAux (pat : List Char) : List Char → Bool
  | [] => listStartsWith pat []
  | c :: cs => listStartsWith pat (c :: cs) || containsAux pat cs

/-- Bool-valued substring test, mirroring the Python in operator on strings. -/
def containsSubstr (s pat : String) : Bool :=
  containsAux pat.toList s.toList

/-- Python sep.join for strings. -/
def joinWith (sep : String) : List String → String
  | [] => ""
  | [x] => x
  | x :: y :: rest => x ++ sep ++ joinWith sep (y :: rest)

/-- Concatenation of a list of strings; models repeated += accumulation. -/
def concatAll : List String → String
  | [] => ""
  | x :: rest => x ++ concatAll rest

/-- Index of the last occurrence of a character, mirroring str.rfind. -/
def lastIndexOfAux (c : Char) : List Char → Nat → Option Nat
  | [], _ => none
  | x :: xs, i =>
      match lastIndexOfAux c xs (i + 1) with
      | some j => some j
      | none => if x == c then some i else none

/-- Index of the last occurrence of a character in a list, or none. -/
def lastIndexOf (cs : List Char) (c : Char) : Option Nat :=
  lastIndexOfAux c cs 0

/-- The final path component, mirroring pathlib.PurePath.name (trailing
separators ignored). -/
def PyPath.nameOf (p : PyPath) : String :=
  (((splitOnChar ('/') p.s.toList).map String.mk).filter (fun c => !(c == ""))).getLastD ""

/-- The extension of the final component, mirroring pathlib.PurePath.suffix:
the part of the name from its last dot, provided that dot is neither the
first nor the last character of the name; otherwise the empty string. -/
def PyPath.suffix (p : PyPath) : String :=
  let nm := p.nameOf
  match lastIndexOf nm.toList ('.') with
  | some i => if 0 < i && i < nm.length - 1 then String.mk (nm.toList.drop i) else ""
  | none => ""

/-- The final component without its suffix, mirroring pathlib.PurePath.stem. -/
def PyPath.stem (p : PyPath) : String :=
  let nm := p.nameOf
  match lastIndexOf nm.toList ('.') with
  | some i => if 0 < i && i < nm.length - 1 then String.mk (nm.toList.take i) else nm
  | none => nm

/-- Child path, mirroring the pathlib / operator. -/
def PyPath.child (p : PyPath) (childName : String) : PyPath :=
  ⟨p.s ++ "/" ++ childName⟩

/-- Path components of a textual path: split on the separator, dropping empty
components and single-dot components. -/
def pathComponents (s : String) : List String :=
  ((splitOnChar ('/') s.toList).map String.mk).filter (fun c => !(c == "") && !(c == "."))

/-- Component form of os.path.relpath: drop the common prefix, then one ".."
per remaining start component followed by the remaining path components. -/
def relpathComponents : List String → List String → List String
  | a :: p, b :: st =>
      if a == b then relpathComponents p st
      else List.replicate (st.length + 1) ".." ++ a :: p
  | p, st => List.replicate st.length ".." ++ p

/-- os.path.relpath(path, start) on already-normalized absolute paths; an
empty relative result is the current directory. -/
def relpath (path start : String) : String :=
  let r := relpathComponents (pathComponents path) (pathComponents start)
  if r.isEmpty then "." else joinWith "/" r

/-- Embeds to_tcl_path from tcl.py (lines 6-10): relpath(path.resolve(),
start=project_folder), with Path.resolve modelled as the identity on the
already-resolved model paths. The cygwin_root parameter of the source is
unused by its body and is mirrored here. -/
def toTclPath (path : PyPath) (project_folder : PyPath) (cygwin_root : String) : String :=
  relpath path.s project_folder.s

/-- Models the call expression to_tcl_path(path) exactly as it appears inside
LiberoTcl._add_constraints (and the other dead helpers _add_module_source_files
and _add_tcl_sources): tcl.py defines to_tcl_path with a required positional
parameter project_folder, so Python raises TypeError at each such call before
the callee body ever runs. -/
def toTclPathOneArg (path : PyPath) : Except PyError String :=
  Except.error (PyError.typeError "to_tcl_path() missing 1 required positional argument: project_folder")

/-- A generic value: the data model supports boolean, numeric and string
generic values (spec section 3); LiberoTcl._add_generics dispatches on
isinstance(value, bool). -/
inductive GenValue where
  | bool (b : Bool)
  | int (n : Int)
  | str (s : String)
deriving DecidableEq, Repr

/-- A value stored in the keyword-argument bag threaded to module queries and
hooks: either a primitive value or a nested dict (the injected generics
mapping). -/
inductive ArgValue where
  | prim (v : GenValue)
  | dict (g : List (String × GenValue))
deriving DecidableEq, Repr

/-- Insertion-ordered dict update of a single key, mirroring Python dict
assignment: an existing key keeps its position and receives the new value, a
new key is appended. -/
def dictUpdateOne (d : List (String × ArgValue)) (k : String) (v : ArgValue) :
    List (String × ArgValue) :=
  if d.any (fun e => e.1 == k) then d.map (fun e => if e.1 == k then (k, v) else e)
  else d ++ [(k, v)]

/-- Python dict.update over an insertion-ordered association list. -/
def dictUpdate (d : List (String × ArgValue)) (additions : List (String × ArgValue)) :
    List (String × ArgValue) :=
  additions.foldl (fun acc e => dictUpdateOne acc e.1 e.2) d

/-- Lookup in the keyword-argument bag. -/
def dictGet (d : List (String × ArgValue)) (k : String) : Option ArgValue :=
  match d.find? (fun e => e.1 == k) with
  | some e => some e.2
  | none => none

/-- Embeds copy_and_combine_dicts (project.py lines 297-313) for the only
shapes that occur: both arguments are dicts, because both come from kwargs
parameters which are never None in Python; values of the second dict win on
key collision. -/
def copyAndCombineDicts (dict_first dict_second : List (String × ArgValue)) :
    List (String × ArgValue) :=
  dictUpdate dict_first dict_second

/-- An HDL source file as returned by a module's get_synthesis_files query;
only its path is read by LiberoTcl.create. -/
structure HdlFile where
  path : PyPath
deriving DecidableEq, Repr

/-- An IP-core file descriptor as returned by get_ip_core_files. -/
structure IpCoreFile where
  path : PyPath
deriving DecidableEq, Repr

/-- A constraint record; LiberoTcl reads its file attribute and derives its
kind from the file suffix at routing time. -/
structure Constraint where
  file : PyPath
deriving DecidableEq, Repr

/-- An opaque build-step hook record; the Libero subsystem stores the list and
passes it to LiberoTcl.create, which never reads it. -/
structure BuildStepHook where
  tcl_file : PyPath
deriving DecidableEq, Repr

/-- The module collaborator interface used by LiberoTcl.create: a name, a
library name, and the two query operations, each of which receives the merged
keyword-argument bag (the source passes it via **other_arguments). The
get_scoped_constraints query exists in the source interface but is only read
by the dead helper _iterate_constraints, so it is not part of the embedding. -/
structure BaseModule where
  name : String
  library_name : String
  get_synthesis_files : List (String × ArgValue) → List HdlFile
  get_ip_core_files : List (String × ArgValue) → List IpCoreFile

/-- Python list indexing: out-of-range access raises IndexError. -/
def pyIndex {α : Type} (l : List α) (n : Nat) : Except PyError α :=
  match l.get? n with
  | some x => Except.ok x
  | none => Except.error PyError.indexError

/-- The four values produced by the part-string decomposition in
LiberoTcl.create. -/
structure PartFields where
  device : String
  speed : String
  package : String
  temp_range : String
deriving DecidableEq, Repr

/-- Embeds the part decomposition of LiberoTcl.create (tcl.py lines 49-56):
parts = part.split("-"); device = parts[0]; speed = parts[1];
package = parts[2]; temp_range = parts[3] if len(parts) > 3 else "COM".
Out-of-range indexing raises IndexError, in evaluation order. -/
def decomposePart (part : String) : Except PyError PartFields :=
  match pyIndex (pySplit ('-') part) 0 with
  | Except.error e => Except.error e
  | Except.ok device =>
    match pyIndex (pySplit ('-') part) 1 with
    | Except.error e => Except.error e
    | Except.ok speed =>
      match pyIndex (pySplit ('-') part) 2 with
      | Except.error e => Except.error e
      | Except.ok package =>
          Except.ok { device := device, speed := speed, package := package,
                      temp_range :=
                        if (pySplit ('-') part).length > 3 then
                          (pySplit ('-') part).getD 3 ""
                        else "COM" }

/-- Insertion step of the stable sort model: the new element is placed before
the first list element it is allowed to precede. With reverse=True and a
Bool-valued key, a may precede b exactly when key a is at least key b, i.e.
key a or not key b. -/
def pyInsertDescBool {α : Type} (key : α → Bool) (a : α) : List α → List α
  | [] => [a]
  | b :: l => if key a || !(key b) then a :: b :: l else b :: pyInsertDescBool key a l

/-- Models Python list.sort(key=k, reverse=True) for a Bool-valued key k.
CPython's sort is stable, also under reverse=True (reverse negates the
comparisons, it does not reverse the list), and insertion sort inserting each
element before the first element it may precede realizes exactly that stable
descending order. -/
def pySortDescBool {α : Type} (key : α → Bool) : List α → List α
  | [] => []
  | a :: l => pyInsertDescBool key a (pySortDescBool key l)

/-- The single-quote character, used by the toolchain bit-literal syntax. -/
def squote : String := String.mk [Char.ofNat 39]

/-- The bit literal the serializer produces for a True generic. -/
def bitLitTrue : String := "1" ++ squote ++ "b1"

/-- The bit literal the serializer produces for a False generic. -/
def bitLitFalse : String := "1" ++ squote ++ "b0"

/-- Rendering of one generic entry inside LiberoTcl._add_generics: booleans
become single-bit literals, every other value is rendered via str(). -/
def renderGenericEntry (nv : String × GenValue) : String :=
  match nv.2 with
  | GenValue.bool value => nv.1 ++ "=" ++ (if value then bitLitTrue else bitLitFalse)
  | GenValue.int value => nv.1 ++ "=" ++ toString value
  | GenValue.str value => nv.1 ++ "=" ++ value

/-- Embeds LiberoTcl._add_generics (tcl.py lines 142-160): an empty mapping
produces the empty string (no command); otherwise one set_property command
holding all entries, space-joined in the mapping's insertion order. -/
def addGenerics (generics : List (String × GenValue)) : String :=
  if generics.isEmpty then ""
  else
    ("set_property generic \x7b")
      ++ joinWith " " (generics.map renderGenericEntry)
      ++ ("\x7d [current_fileset]\n")

/-- Embeds LiberoTcl._add_constraints (tcl.py lines 172-191). For each
constraint the body first evaluates to_tcl_path(constraint.file) and only then
dispatches on the file suffix (.pdc and .sdc link commands, .tcl skipped when
skip_tcl is set and sourced otherwise, NotImplementedError for anything else).
Because tcl.py's to_tcl_path requires the positional parameter project_folder,
that first evaluation raises TypeError on every iteration, modelled by
toTclPathOneArg. -/
def addConstraints (constraints : List Constraint) (skip_tcl : Bool) :
    Except PyError String := do
  let mut tcl := ""
  for constraint in constraints do
    let constraint_file ← toTclPathOneArg constraint.file
    if constraint.file.suffix == ".pdc" then
      tcl := tcl ++ "\tcreate_links -pdc \x7b" ++ constraint_file ++ "\x7d\n"
    else if constraint.file.suffix == ".sdc" then
      tcl := tcl ++ "\tcreate_links -sdc \x7b" ++ constraint_file ++ "\x7d\n"
    else if constraint.file.suffix == ".tcl" then
      if skip_tcl then
        continue
      tcl := tcl ++ "\tsource -notrace \x7b" ++ constraint_file ++ "\x7d\n"
    else
      throw (PyError.notImplementedError ("Can not handle file: " ++ constraint.file.s))
  return tcl

/-- The statement LiberoTcl.create emits for one project-level constraint
(tcl.py line 88): a plain fpga_file registration of the constraint's path,
with no suffix dispatch. -/
def constraintFpgaFileStmt (project_folder : PyPath) (c : Constraint) : String :=
  ("fpga_file \x7b") ++ toTclPath c.file project_folder "" ++ ("\x7d\n")

/-- Embeds the module part of the statement-accumulation loop of
LiberoTcl.create (tcl.py lines 63-85): modules are sorted top-module-first
(stable, reverse=True on the Bool key), then per module the synthesis files
are sorted top-file-first; files of the module whose library equals top are
registered without a library qualifier and all other files with their
module's library name; IP-core files are registered only when their suffix is
.cxf. -/
def moduleFpgaFileStmts (top : String) (project_folder : PyPath)
    (modules : List BaseModule) (other_arguments : List (String × ArgValue)) : String :=
  concatAll ((pySortDescBool (fun m => m.name == top) modules).map (fun module =>
    concatAll ((pySortDescBool (fun hdl_file => hdl_file.path.stem == top)
        (module.get_synthesis_files other_arguments)).map (fun hdl_file =>
      if module.library_name == top then
        ("fpga_file \x7b") ++ toTclPath hdl_file.path project_folder "" ++ ("\x7d\n")
      else
        ("fpga_file \x7b") ++ toTclPath hdl_file.path project_folder ""
          ++ ("\x7d ") ++ module.library_name ++ "\n"))
    ++ concatAll ((module.get_ip_core_files other_arguments).map (fun ip_core_file =>
      if ip_core_file.path.suffix == ".cxf" then
        ("fpga_file \x7b") ++ toTclPath ip_core_file.path project_folder "" ++ ("\x7d\n")
      else ""))))

/-- The full accumulated statement block of LiberoTcl.create (tcl.py lines
61-88): the module statements followed by one plain fpga_file registration per
project-level constraint. -/
def fpgaFilesTcl (top : String) (project_folder : PyPath) (modules : List BaseModule)
    (constraints : List Constraint) (other_arguments : List (String × ArgValue)) : String :=
  moduleFpgaFileStmts top project_folder modules other_arguments
    ++ concatAll (constraints.map (constraintFpgaFileStmt project_folder))

/-- The template substitution of LiberoTcl.create (tcl.py lines 90-102), in
the source's replacement order. -/
def substituteTemplate (template projectName part family : String) (fields : PartFields)
    (top : String) (project_folder : PyPath) (tcl : String) : String :=
  pyReplace (pyReplace (pyReplace (pyReplace (pyReplace (pyReplace (pyReplace
    (pyReplace (pyReplace (pyReplace template
      ("__project__") projectName)
      ("__part__") part)
      ("__family__") family)
      ("__device__") fields.device)
      ("__package__") fields.package)
      ("__speed__") fields.speed)
      ("__temp_range__") fields.temp_range)
      ("__top__") top)
      ("__destination__") project_folder.s)
      ("__fpga_files__") tcl

/-- Embeds LiberoTcl.create (tcl.py lines 25-104): decompose the part string
(IndexError when it has fewer than 3 dash-separated segments), accumulate the
fpga_file statement block, then substitute the template placeholders. The
parameters run_index, generics, tcl_sources, build_step_hooks, ip_cache_path,
disable_io_buffers and ip_cores_only are accepted and never read by the body,
exactly as in the source (the body normalizes generics to an empty dict and
then ignores it). The source's constraints parameter defaults to None, but
every caller (LiberoProject._create_tcl) passes a list, and iterating None
would raise, so the embedding takes the list directly. -/
def liberoTclCreate (template projectName : String) (project_folder : PyPath)
    (modules : List BaseModule) (part family top : String) (run_index : Int)
    (generics : Option (List (String × GenValue))) (constraints : List Constraint)
    (tcl_sources : Option (List PyPath)) (build_step_hooks : Option (List BuildStepHook))
    (ip_cache_path : Option PyPath) (disable_io_buffers ip_cores_only : Bool)
    (other_arguments : Option (List (String × ArgValue))) : Except PyError String :=
  match decomposePart part with
  | Except.error e => Except.error e
  | Except.ok fields =>
      Except.ok (substituteTemplate template projectName part family fields top
        project_folder
        (fpgaFilesTcl top project_folder modules constraints (other_arguments.getD [])))

/-- Modelled from the spec: the repository's template.tcl asset is not under
src/ (only LiberoTcl.create reads it); spec section 6 documents it as a
toolchain-specific text file containing the named placeholders __project__,
__part__, __family__, __device__, __package__, __speed__, __temp_range__,
__top__, __destination__ and __fpga_files__, treated as an opaque versioned
asset. This model instance contains each placeholder exactly once. -/
def templateTcl : String :=
  ("new_project -location \x7b__destination__\x7d -name \x7b__project__\x7d")
    ++ (" -family __family__ -die __device__ -package \x7b__package__\x7d")
    ++ (" -speed __speed__ -temp_range __temp_range__ -part __part__")
    ++ (" -top __top__\n__fpga_files__")

/-- Explicit filesystem state: the directories and the path/content file
pairs that exist. -/
structure FileSystem where
  dirs : List PyPath
  files : List (PyPath × String)
deriving DecidableEq, Repr

/-- pathlib.Path.exists: anything (directory or file) present at the path. -/
def FileSystem.existsPath (fs : FileSystem) (p : PyPath) : Bool :=
  fs.dirs.contains p || (fs.files.map Prod.fst).contains p

/-- All ancestor paths of a path, innermost last, each rendered as an
absolute path. -/
def pathPrefixes (p : PyPath) : List PyPath :=
  let cs := pathComponents p.s
  (List.range cs.length).map (fun i =>
    ⟨(cs.take (i + 1)).foldl (fun acc c => acc ++ "/" ++ c) ""⟩)

/-- pathlib.Path.mkdir(parents=True): creates the directory and every missing
ancestor; files are untouched. -/
def mkdirParents (fs : FileSystem) (p : PyPath) : FileSystem :=
  { fs with dirs := fs.dirs ++ (pathPrefixes p).filter (fun q => !fs.dirs.contains q) }

/-- Modelled from the spec: create_file comes from the repository module
corel_tsfpga.tsfpga.system_utils, which is not under src/; spec section 4.6
step 6 says the Script Assembler result is written to a fixed file name inside
project_path. Writes the contents at the path, replacing any previous content
there and appending a new entry otherwise. -/
def createFile (fs : FileSystem) (p : PyPath) (contents : String) : FileSystem :=
  if fs.files.any (fun e => e.1 == p) then
    { fs with files := fs.files.map (fun e => if e.1 == p then (p, contents) else e) }
  else
    { fs with files := fs.files ++ [(p, contents)] }

/-- The Project Descriptor state set up by LiberoProject.__init__ (project.py
lines 13-106), restricted to the fields some claim observes; the defensive
.copy() calls of the constructor are identities in the pure embedding, and the
fields vivado_path and defined_at (read only by the textual summary) are
omitted. is_netlist_build and ip_cores_only are set to False by the
constructor and forwarded to LiberoTcl.create as disable_io_buffers and
ip_cores_only. -/
structure LiberoProjectData where
  name : String
  modules : List BaseModule
  part : String
  family : String
  top : String
  static_generics : List (String × GenValue)
  constraints : List Constraint
  tcl_sources : List PyPath
  build_step_hooks : List BuildStepHook
  default_run_index : Int
  other_arguments : List (String × ArgValue)
  is_netlist_build : Bool
  ip_cores_only : Bool

/-- Embeds line 104 of project.py: self.top = "top_" + name if top is None
else top. -/
def initTop (projectName : String) (top : Option String) : String :=
  match top with
  | none => ("top_") ++ projectName
  | some t => t

/-- Embeds LiberoProject.__init__ (project.py lines 13-106): normalizes the
optional collection arguments to fresh empty collections, stores the rest,
and infers top from the name when it is not supplied. -/
def liberoProjectInit (projectName : String) (modules : List BaseModule)
    (part family : String) (top : Option String)
    (generics : Option (List (String × GenValue)))
    (constraints : Option (List Constraint)) (tcl_sources : Option (List PyPath))
    (build_step_hooks : Option (List BuildStepHook)) (default_run_index : Int)
    (other_arguments : List (String × ArgValue)) : LiberoProjectData :=
  { name := projectName
    modules := modules
    part := part
    family := family
    top := initTop projectName top
    static_generics := generics.getD []
    constraints := constraints.getD []
    tcl_sources := tcl_sources.getD []
    build_step_hooks := build_step_hooks.getD []
    default_run_index := default_run_index
    other_arguments := other_arguments
    is_netlist_build := false
    ip_cores_only := false }

/-- Embeds LiberoProject._create_tcl (project.py lines 129-156): raise
ValueError if project_path exists, create the directory (with parents),
generate the TCL text via LiberoTcl.create and write it to
create_libero_project.tcl inside the project directory. -/
def createTclFile (template : String) (proj : LiberoProjectData) (fs : FileSystem)
    (project_path : PyPath) (ip_cache_path : Option PyPath)
    (all_arguments : List (String × ArgValue)) : FileSystem × Except PyError PyPath :=
  if fs.existsPath project_path then
    (fs, Except.error (PyError.valueError (("Folder already exists: ") ++ project_path.s)))
  else
    match liberoTclCreate template proj.name project_path proj.modules proj.part
        proj.family proj.top proj.default_run_index (some proj.static_generics)
        proj.constraints (some proj.tcl_sources) (some proj.build_step_hooks)
        ip_cache_path proj.is_netlist_build proj.ip_cores_only (some all_arguments) with
    | Except.error e => (mkdirParents fs project_path, Except.error e)
    | Except.ok tcl =>
        (createFile (mkdirParents fs project_path)
          (project_path.child ("create_libero_project.tcl")) tcl,
         Except.ok (project_path.child ("create_libero_project.tcl")))

/-- Embeds LiberoProject.create (project.py lines 158-219). The deep copy of
the module list is the identity in the pure embedding. pre_create is an
extension point whose base implementation returns True unconditionally; the
value it returns for this call is the pre_create_result parameter. The merged
argument bag combines the constructor's other_arguments with the per-call
ones (per-call wins) and is then augmented with the generics and part entries,
in that keyword order. A raised Python exception is the Except.error
component of the result; the Bool is the method's return value. -/
def liberoProjectCreate (template : String) (proj : LiberoProjectData)
    (pre_create_result : Bool) (fs : FileSystem) (project_path : PyPath)
    (ip_cache_path : Option PyPath) (other_arguments : List (String × ArgValue)) :
    FileSystem × Except PyError Bool :=
  let all_arguments := dictUpdate (copyAndCombineDicts proj.other_arguments other_arguments)
      [(("generics"), ArgValue.dict proj.static_generics),
       (("part"), ArgValue.prim (GenValue.str proj.part))]
  if !pre_create_result then
    (fs, Except.ok false)
  else
    match createTclFile template proj fs project_path ip_cache_path all_arguments with
    | (fs2, Except.error e) => (fs2, Except.error e)
    | (fs2, Except.ok _) => (fs2, Except.ok true)

/-- Bool-valued success test for an Except value. -/
def exceptIsOk {ε α : Type} : Except ε α → Bool
  | Except.ok _ => true
  | Except.error _ => false

/-- Empty filesystem fixture for concrete runs. -/
def fs0 : FileSystem := ⟨[], []⟩

/-- Project directory fixture for concrete runs. -/
def p0 : PyPath := ⟨"/work/proj"⟩

/-- A minimal concrete Project Descriptor with a well-formed part string and
no modules, used by the concrete runs below. -/
def projDemo : LiberoProjectData :=
  { name := "demo", modules := [], part := "a-b-c", family := "fam",
    top := "top_demo", static_generics := [], constraints := [],
    tcl_sources := [], build_step_hooks := [], default_run_index := 1,
    other_arguments := [], is_netlist_build := false, ip_cores_only := false }

/-- The descriptor fixture with a part string of only two dash-separated
segments. -/
def projBadPart : LiberoProjectData :=
  { projDemo with part := "xc7z020clg400-1" }

/-- The filesystem after one successful create of projDemo into p0. -/
def fsAfterFirst : FileSystem :=
  (liberoProjectCreate templateTcl projDemo true fs0 p0 none []).1

/-- A module whose synthesis-file query depends on the generics entry of the
keyword-argument bag it receives — the parameterization the source explicitly
enables by forwarding **other_arguments to the module queries. -/
def genSensitiveModule : BaseModule :=
  { name := "m"
    library_name := "mlib"
    get_synthesis_files := fun args =>
      if dictGet args "generics" = some (ArgValue.dict [(("g"), GenValue.bool true)]) then
        [⟨⟨"/repo/m/m.vhd"⟩⟩]
      else []
    get_ip_core_files := fun _ => [] }

/-- A descriptor containing genSensitiveModule, parameterized by its static
generics mapping and otherwise fixed. -/
def projGen (g : List (String × GenValue)) : LiberoProjectData :=
  { name := "demo", modules := [genSensitiveModule], part := "a-b-c", family := "fam",
    top := "top_demo", static_generics := g, constraints := [],
    tcl_sources := [], build_step_hooks := [], default_run_index := 1,
    other_arguments := [], is_netlist_build := false, ip_cores_only := false }

set_option maxRecDepth 10000

theorem stringAppendEmpty (s : String) : s ++ "" = s := by
  cases s with
  | mk data =>
      show String.mk (data ++ []) = String.mk data
      rw [List.append_nil]

theorem pyInsertDescBool_keyTrue {α : Type} (key : α → Bool) (a : α) (l : List α)
    (h : key a = true) : pyInsertDescBool key a l = a :: l := by
  cases l with
  | nil => rfl
  | cons b t => simp [pyInsertDescBool, h]

theorem pyInsertDescBool_keyFalse_append {α : Type} (key : α → Bool) (a : α)
    (T R : List α) (ha : key a = false) (hT : ∀ x ∈ T, key x = true) :
    pyInsertDescBool key a (T ++ R) = T ++ pyInsertDescBool key a R := by
  induction T with
  | nil => rfl
  | cons b t ih =>
      have hb : key b = true := hT b (by simp)
      have ih2 := ih (fun x hx => hT x (by simp [hx]))
      simp [pyInsertDescBool, ha, hb, ih2]

theorem pyInsertDescBool_keyFalse_all {α : Type} (key : α → Bool) (a : α)
    (R : List α) (ha : key a = false) (hR : ∀ x ∈ R, key x = false) :
    pyInsertDescBool key a R = a :: R := by
  cases R with
  | nil => rfl
  | cons b t =>
      have hb : key b = false := hR b (by simp)
      simp [pyInsertDescBool, ha, hb]

theorem pySortDescBool_eq_partition {α : Type} (key : α → Bool) (l : List α) :
    pySortDescBool key l
      = l.filter (fun x => key x) ++ l.filter (fun x => !(key x)) := by
  induction l with
  | nil => rfl
  | cons a t ih =>
      by_cases ha : key a = true
      · rw [show pySortDescBool key (a :: t) = pyInsertDescBool key a (pySortDescBool key t) from rfl,
          ih, pyInsertDescBool_keyTrue key a _ ha]
        simp [List.filter_cons, ha]
      · have ha2 : key a = false := by
          cases h : key a
          · rfl
          · exact absurd h ha
        rw [show pySortDescBool key (a :: t) = pyInsertDescBool key a (pySortDescBool key t) from rfl,
          ih,
          pyInsertDescBool_keyFalse_append key a _ _ ha2
            (fun x hx => (List.mem_filter.mp hx).2),
          pyInsertDescBool_keyFalse_all key a _ ha2
            (fun x hx => by
              have := (List.mem_filter.mp hx).2
              simpa using this)]
        simp [List.filter_cons, ha2]

theorem decomposePart_short (part : String)
    (h : (pySplit ('-') part).length < 3) :
    decomposePart part = Except.error PyError.indexError := by
  unfold decomposePart
  generalize hp : pySplit ('-') part = parts at h ⊢
  rcases parts with _ | ⟨a, _ | ⟨b, _ | ⟨c, l⟩⟩⟩
  · rfl
  · rfl
  · rfl
  · simp at h
    omega

theorem decomposePart_ok_or_indexError (part : String) :
    decomposePart part = Except.error PyError.indexError
      ∨ exceptIsOk (decomposePart part) = true := by
  unfold decomposePart
  rcases pySplit ('-') part with _ | ⟨a, _ | ⟨b, _ | ⟨c, l⟩⟩⟩
  · exact Or.inl rfl
  · exact Or.inl rfl
  · exact Or.inl rfl
  · exact Or.inr rfl

/-- C2 counterexample: the claim asserts package=clg400 and speed=1 for the
part string xc7z020-clg400-1-COM, but the embedding of LiberoTcl.create
assigns segment 1 to speed and segment 2 to package, so the decomposition is
device=xc7z020, speed=clg400, package=1, temp_range=COM. -/
theorem part_decomposition_counterexample :
    decomposePart "xc7z020-clg400-1-COM"
      = Except.ok { device := "xc7z020", speed := "clg400", package := "1",
                    temp_range := "COM" } ∧
    ¬ (decomposePart "xc7z020-clg400-1-COM"
        = Except.ok { device := "xc7z020", speed := "1", package := "clg400",
                      temp_range := "COM" }) := by
  constructor
  · decide
  · decide

/-- C2 (amended): decomposing the target-part identifier splits it on dashes
and assigns the second segment to speed and the third to package, so
xc7z020-clg400-1-COM yields device=xc7z020, speed=clg400, package=1,
temp_range=COM; and every part string with exactly 3 dash-separated segments
defaults the temperature range to the sentinel COM. -/
theorem part_decomposition_amended :
    decomposePart "xc7z020-clg400-1-COM"
      = Except.ok { device := "xc7z020", speed := "clg400", package := "1",
                    temp_range := "COM" } ∧
    (∀ part : String, (pySplit ('-') part).length = 3 →
      Except.map PartFields.temp_range (decomposePart part) = Except.ok "COM") := by
  constructor
  · decide
  · intro part h
    unfold decomposePart
    generalize hp : pySplit ('-') part = parts at h ⊢
    rcases parts with _ | ⟨a, _ | ⟨b, _ | ⟨c, l⟩⟩⟩
    · simp at h
    · simp at h
    · simp at h
    · have hl : l = [] := by
        simp at h
        exact h
      subst hl
      rfl

/-- Witness for C2 applying the amended theorem at a concrete 3-segment part
string. -/
theorem part_decomposition_amended_witness :
    Except.map PartFields.temp_range (decomposePart "a-b-c") = Except.ok "COM" :=
  part_decomposition_amended.2 "a-b-c" (by decide)

/-- C5: the Module/File Orderer of LiberoTcl.create is a stable partition:
the sort with key name-equals-top (reverse=True) places the modules whose
name equals top first, preserving the relative input order of all other
modules, and the per-module sort with key stem-equals-top does the same for
synthesis files. -/
theorem orderer_stable_partition (top : String) (modules : List BaseModule)
    (files : List HdlFile) :
    pySortDescBool (fun m => m.name == top) modules
      = modules.filter (fun m => m.name == top)
        ++ modules.filter (fun m => !(m.name == top)) ∧
    pySortDescBool (fun hdl_file => hdl_file.path.stem == top) files
      = files.filter (fun hdl_file => hdl_file.path.stem == top)
        ++ files.filter (fun hdl_file => !(hdl_file.path.stem == top)) :=
  ⟨pySortDescBool_eq_partition _ modules, pySortDescBool_eq_partition _ files⟩

/-- C6: the Generic Serializer maps the empty mapping to the empty string and
every non-empty mapping to exactly one command holding each entry as
name=value, space-joined in insertion order, booleans rendered as the bit
literals; in particular enable=true, width=8 yields one statement containing
enable=1 b1 (with the bit-literal quote) and width=8 in that order. -/
theorem generic_serializer_spec :
    addGenerics [] = "" ∧
    (∀ g : List (String × GenValue), g ≠ [] →
      addGenerics g = ("set_property generic \x7b")
        ++ joinWith " " (g.map renderGenericEntry)
        ++ ("\x7d [current_fileset]\n")) ∧
    containsSubstr (addGenerics [(("enable"), GenValue.bool true), (("width"), GenValue.int 8)])
      (("enable=") ++ bitLitTrue) = true ∧
    containsSubstr (addGenerics [(("enable"), GenValue.bool true), (("width"), GenValue.int 8)])
      ("width=8") = true ∧
    addGenerics [(("enable"), GenValue.bool true), (("width"), GenValue.int 8)]
      = ("set_property generic \x7benable=") ++ bitLitTrue
        ++ (" width=8\x7d [current_fileset]\n") := by
  refine ⟨rfl, ?_, by decide, by decide, by decide⟩
  intro g hg
  cases g with
  | nil => exact absurd rfl hg
  | cons a l => rfl

/-- Witness for C6 applying the non-empty case of the theorem at a concrete
one-entry mapping. -/
theorem generic_serializer_spec_witness :
    addGenerics [(("a"), GenValue.int 1)]
      = ("set_property generic \x7b")
        ++ joinWith " " (List.map renderGenericEntry [(("a"), GenValue.int 1)])
        ++ ("\x7d [current_fileset]\n") :=
  generic_serializer_spec.2.1 [(("a"), GenValue.int 1)] (by decide)

/-- C9 counterexample: constructing a Project Descriptor with the supplied
top value being the empty string stores the empty string, so the claimed
invariant that top is non-empty after construction fails. -/
theorem project_top_empty_counterexample :
    initTop "x" (some "") = "" ∧
    (liberoProjectInit "x" [] "a-b-c" "fam" (some "") none none none none 1 []).top
      = "" := by
  constructor
  · rfl
  · rfl

/-- C9 (amended): the constructed top equals the supplied value when one is
given and top_ prepended to the name when top is unset, and top is non-empty
after construction provided any supplied top value is non-empty (a supplied
empty string is stored as-is). -/
theorem project_top_inference (projectName t : String) (hne : t ≠ "") :
    initTop projectName (some t) = t ∧
    initTop projectName none = ("top_") ++ projectName ∧
    initTop projectName (some t) ≠ "" ∧
    initTop projectName none ≠ "" := by
  refine ⟨rfl, rfl, hne, ?_⟩
  show ("top_") ++ projectName ≠ ""
  intro h
  have h2 : ('t' :: 'o' :: 'p' :: '_' :: projectName.data) = ([] : List Char) := by
    cases projectName with
    | mk data => exact congrArg String.data h
  simp at h2

/-- Witness for C9 applying the amended theorem at concrete arguments. -/
theorem project_top_inference_witness :
    initTop "x" (some "mytop") = "mytop" ∧
    initTop "x" none = ("top_") ++ "x" ∧
    initTop "x" (some "mytop") ≠ "" ∧
    initTop "x" none ≠ "" :=
  project_top_inference "x" "mytop" (by decide)

/-- C4: the claim describes the intended suffix routing of
LiberoTcl._add_constraints, but the method evaluates to_tcl_path with its
required project_folder argument missing before any suffix dispatch, so for
every constraint record — .pdc, .sdc, .tcl and unknown suffixes alike — the
router raises TypeError instead; only the empty constraint list succeeds. -/
theorem constraint_router_raises_typeerror :
    addConstraints [⟨⟨"/work/cons/a.pdc"⟩⟩] true
      = Except.error (PyError.typeError "to_tcl_path() missing 1 required positional argument: project_folder") ∧
    addConstraints [⟨⟨"/work/cons/a.sdc"⟩⟩] true
      = Except.error (PyError.typeError "to_tcl_path() missing 1 required positional argument: project_folder") ∧
    addConstraints [⟨⟨"/work/cons/a.tcl"⟩⟩] true
      = Except.error (PyError.typeError "to_tcl_path() missing 1 required positional argument: project_folder") ∧
    addConstraints [⟨⟨"/work/cons/a.tcl"⟩⟩] false
      = Except.error (PyError.typeError "to_tcl_path() missing 1 required positional argument: project_folder") ∧
    addConstraints [⟨⟨"/work/cons/a.foo"⟩⟩] true
      = Except.error (PyError.typeError "to_tcl_path() missing 1 required positional argument: project_folder") ∧
    addConstraints [] true = Except.ok "" := by
  refine ⟨by decide, by decide, by decide, by decide, by decide, by decide⟩

/-- C3 counterexample: with the pre_create hook returning a falsy result on a
fresh filesystem, create reports failure without raising and writes nothing,
but contrary to the claim the project directory has not been created — the
result state does not contain the project path. -/
theorem hook_declined_counterexample :
    liberoProjectCreate templateTcl projDemo false fs0 p0 none []
      = (fs0, Except.ok false) ∧
    (liberoProjectCreate templateTcl projDemo false fs0 p0 none []).1.existsPath p0
      = false := by
  constructor
  · rfl
  · rfl

/-- C3 (amended): whenever the pre_create hook result is falsy, create
returns the failure value False without raising, writes no script file and
creates no directory: the filesystem is returned entirely unchanged, because
directory creation happens inside _create_tcl, which only runs after the hook
passes. -/
theorem hook_declined_no_side_effects (template : String) (proj : LiberoProjectData)
    (fs : FileSystem) (project_path : PyPath) (ip_cache_path : Option PyPath)
    (other_arguments : List (String × ArgValue)) :
    liberoProjectCreate template proj false fs project_path ip_cache_path other_arguments
      = (fs, Except.ok false) := rfl

/-- C1 counterexample: during script assembly a project-level .pdc constraint
contributes a plain unrouted fpga_file registration statement with no -pdc
flag and no create_links command, and an unrecognized .foo constraint does
not make assembly fail. -/
theorem constraints_not_routed :
    fpgaFilesTcl "top_demo" p0 [] [⟨⟨"/work/cons/a.pdc"⟩⟩] []
      = ("fpga_file \x7b../cons/a.pdc\x7d\n") ∧
    containsSubstr (fpgaFilesTcl "top_demo" p0 [] [⟨⟨"/work/cons/a.pdc"⟩⟩] [])
      ("-pdc") = false ∧
    containsSubstr (fpgaFilesTcl "top_demo" p0 [] [⟨⟨"/work/cons/a.pdc"⟩⟩] [])
      ("create_links") = false ∧
    exceptIsOk (liberoTclCreate templateTcl "demo" p0 [] "a-b-c" "fam" "top_demo" 1
      none [⟨⟨"/work/cons/a.foo"⟩⟩] none none none true false none) = true := by
  refine ⟨by decide, by decide, by decide, by decide⟩

/-- C1 (amended): LiberoTcl.create appends, after the module statements, one
plain fpga_file registration statement per project-level constraint,
regardless of the constraint's suffix; the Constraint Router is not invoked
during assembly, and assembly never fails with the router's unsupported-kind
error — the only failure LiberoTcl.create can raise is the IndexError of the
part decomposition. -/
theorem constraints_emitted_unrouted (template projectName : String)
    (project_folder : PyPath) (modules : List BaseModule) (part family top : String)
    (run_index : Int) (generics : Option (List (String × GenValue)))
    (constraints : List Constraint) (tcl_sources : Option (List PyPath))
    (build_step_hooks : Option (List BuildStepHook)) (ip_cache_path : Option PyPath)
    (disable_io_buffers ip_cores_only : Bool)
    (other_arguments : List (String × ArgValue)) :
    fpgaFilesTcl top project_folder modules constraints other_arguments
      = fpgaFilesTcl top project_folder modules [] other_arguments
        ++ concatAll (constraints.map (constraintFpgaFileStmt project_folder)) ∧
    (liberoTclCreate template projectName project_folder modules part family top
        run_index generics constraints tcl_sources build_step_hooks ip_cache_path
        disable_io_buffers ip_cores_only (some other_arguments)
          = Except.error PyError.indexError
      ∨ exceptIsOk (liberoTclCreate template projectName project_folder modules part
          family top run_index generics constraints tcl_sources build_step_hooks
          ip_cache_path disable_io_buffers ip_cores_only (some other_arguments))
          = true) := by
  constructor
  · rw [show fpgaFilesTcl top project_folder modules constraints other_arguments
        = moduleFpgaFileStmts top project_folder modules other_arguments
          ++ concatAll (constraints.map (constraintFpgaFileStmt project_folder)) from rfl,
      show fpgaFilesTcl top project_folder modules [] other_arguments
        = moduleFpgaFileStmts top project_folder modules other_arguments ++ "" from rfl,
      stringAppendEmpty]
  · rcases decomposePart_ok_or_indexError part with h | h
    · exact Or.inl (by unfold liberoTclCreate; rw [h])
    · cases hd : decomposePart part with
      | error e =>
          rw [hd] at h
          exact absurd h (by simp [exceptIsOk])
      | ok fields =>
          refine Or.inr ?_
          unfold liberoTclCreate
          rw [hd]
          exact rfl

/-- C7: a create call whose project_path already exists fails with the
ValueError that models DirectoryExists, naming the path, and returns the
filesystem unchanged, so all pre-existing content — in particular an earlier
create's script file — is untouched. -/
theorem create_on_existing_path_fails (template : String) (proj : LiberoProjectData)
    (fs : FileSystem) (project_path : PyPath) (ip_cache_path : Option PyPath)
    (other_arguments : List (String × ArgValue))
    (h : fs.existsPath project_path = true) :
    liberoProjectCreate template proj true fs project_path ip_cache_path other_arguments
      = (fs, Except.error (PyError.valueError (("Folder already exists: ") ++ project_path.s))) := by
  unfold liberoProjectCreate createTclFile
  simp [h]

/-- Witness for C7: after one successful concrete create, a second create of
the same path fails with the DirectoryExists error and returns the first
call's filesystem — including its script file — unchanged. -/
theorem create_on_existing_path_fails_witness :
    liberoProjectCreate templateTcl projDemo true fsAfterFirst p0 none []
      = (fsAfterFirst, Except.error (PyError.valueError (("Folder already exists: ") ++ p0.s))) :=
  create_on_existing_path_fails templateTcl projDemo fsAfterFirst p0 none [] (by decide)

/-- C8: for every part string with fewer than 3 dash-separated segments,
create fails with the IndexError that models MalformedPartIdentifier, and the
failure happens before any file is written: the only filesystem change is the
directory creation, the file list is unchanged. -/
theorem malformed_part_fails_before_write (template : String) (proj : LiberoProjectData)
    (fs : FileSystem) (project_path : PyPath) (ip_cache_path : Option PyPath)
    (other_arguments : List (String × ArgValue))
    (hpart : (pySplit ('-') proj.part).length < 3)
    (hnew : fs.existsPath project_path = false) :
    liberoProjectCreate template proj true fs project_path ip_cache_path other_arguments
      = (mkdirParents fs project_path, Except.error PyError.indexError) ∧
    (mkdirParents fs project_path).files = fs.files := by
  have hd := decomposePart_short proj.part hpart
  constructor
  · unfold liberoProjectCreate createTclFile liberoTclCreate
    simp [hnew, hd]
  · rfl

/-- Witness for C8 applying the theorem to the concrete two-segment part
string xc7z020clg400-1 on an empty filesystem. -/
theorem malformed_part_witness :
    liberoProjectCreate templateTcl projBadPart true fs0 p0 none []
      = (mkdirParents fs0 p0, Except.error PyError.indexError) ∧
    (mkdirParents fs0 p0).files = fs0.files :=
  malformed_part_fails_before_write templateTcl projBadPart fs0 p0 none []
    (by decide) (by decide)

/-- C10 counterexample: two create invocations differing only in the
descriptor's static generics mapping produce different filesystem results —
the generics entry of the merged argument bag reaches the module's
synthesis-file query and changes the emitted script text. -/
theorem script_depends_on_generics :
    (liberoProjectCreate templateTcl (projGen [(("g"), GenValue.bool true)]) true fs0 p0 none []).1
      ≠ (liberoProjectCreate templateTcl (projGen []) true fs0 p0 none []).1 := by
  decide

/-- C10 (amended): the generated result is independent of the descriptor's
tcl_sources, build_step_hooks and default run index and of the per-call
ip_cache_path — none of them reaches the script text — while independence
from the generics mapping does not hold. -/
theorem script_independent_of_unused_inputs (template : String)
    (proj : LiberoProjectData) (pre_create_result : Bool) (fs : FileSystem)
    (project_path : PyPath) (ts ts2 : List PyPath)
    (hooks hooks2 : List BuildStepHook) (ri ri2 : Int) (ip ip2 : Option PyPath)
    (other_arguments : List (String × ArgValue)) :
    liberoProjectCreate template
        { proj with tcl_sources := ts, build_step_hooks := hooks, default_run_index := ri }
        pre_create_result fs project_path ip other_arguments
      = liberoProjectCreate template
        { proj with tcl_sources := ts2, build_step_hooks := hooks2, default_run_index := ri2 }
        pre_create_result fs project_path ip2 other_arguments := by
  cases proj
  rfl
